import Mathlib

/-!
Shallow embedding of `src/app.py` (text2solve): a Streamlit app that sends a
question to a remote text-generation service, shows the answer, persists the
pair to a Firestore collection and renders a paginated history.

External collaborators (the Gemini remote call, the Firestore read/write, the
secrets store) are modelled as explicit oracle parameters; Streamlit message
calls (st.error / st.warning / st.success / st.info) are modelled as an emitted
message list; Streamlit caches are modelled as an explicit cache-state record.
-/

namespace TextToSolve

/-- Kind of a user-facing Streamlit message (st.error / st.warning /
st.success / st.info). -/
inductive MsgKind
  | error
  | warning
  | success
  | info
deriving DecidableEq, Repr

/-- One user-facing message emitted during an action. -/
structure Msg where
  kind : MsgKind
  text : String
deriving DecidableEq, Repr

/-- Timestamp field of a document written by `save_qa_to_firestore`:
the code writes `firestore.SERVER_TIMESTAMP` (the server-assigned marker);
a client-chosen instant would be `client t`. -/
inductive WriteTS
  | server
  | client (t : Nat)
deriving DecidableEq, Repr

/-- A document as written to the `q_and_a` collection (app.py lines 92-96). -/
structure WriteDoc where
  question : String
  solution : String
  timestamp : WriteTS
deriving DecidableEq, Repr

/-- Timestamp value as it comes back from the underlying store on a read:
either a native instant (a `datetime`, abstracted to a `Nat`) or already text. -/
inductive ReadTSVal
  | instant (t : Nat)
  | text (s : String)
deriving DecidableEq, Repr

/-- A document as returned by `doc.to_dict()` on the read path; every field may
be absent from the dict. -/
structure ReadDoc where
  question : Option String
  solution : Option String
  timestamp : Option ReadTSVal
deriving DecidableEq, Repr

/-- Abstraction of Python `datetime.isoformat()`: some text rendering of the
instant. -/
def isoformat (t : Nat) : String :=
  toString t

/-- Python `s.startswith(p)` on our string model. -/
def startswith (s p : String) : Bool :=
  p.data.isPrefixOf s.data

/-- Python `s.strip()`: drop leading and trailing whitespace. -/
def pyStrip (s : String) : String :=
  ⟨((s.data.dropWhile Char.isWhitespace).reverse.dropWhile Char.isWhitespace).reverse⟩

/-- Python truthiness of the module global `GEMINI_API_KEY`
(`None` and `""` are falsy). -/
def pyTruthyStr : Option String → Bool
  | none => false
  | some s => s != ""

/-- The literal failure sentinel built by `generate_solution`
(app.py line 149, before the interpolated exception text). -/
def sentinelMarker : String :=
  "Sorry, I couldn\x27t generate a solution at this time. Error: "

/-- The literal checked by the generate-button handler (app.py line 189). -/
def saveCheckMarker : String :=
  "Sorry, I couldn\x27t generate a solution"

/-- The fixed string returned when the model object is `None`
(app.py line 130). -/
def modelNotInitMsg : String :=
  "Error: Gemini model not initialized. Please check API key and configuration."

/-- The fixed prompt template of `generate_solution` (app.py lines 134-143)
with the question interpolated. -/
def promptOf (question : String) : String :=
  "\n    You are an expert math and physics tutor.\n    Provide a clear, step-by-step solution to the following question.\n    Explain each step thoroughly. If formulas are used, state them first.\n    Make the solution easy for a beginner to understand.\n\n    Question: \"" ++ question ++ "\"\n\n    Solution:\n    "

/-- `generate_solution` (app.py lines 127-149). `modelLoaded` is the truthiness
of the module global `model`; `remote` is the Gemini call
`model.generate_content`, returning either the response text or raising (the
exception message). Returns the result string together with the messages
emitted inside the function. -/
def generate_solution (modelLoaded : Bool) (remote : String → Except String String)
    (question : String) : String × List Msg :=
  if !modelLoaded then
    (modelNotInitMsg, [])
  else if question = "" then
    ("Please enter a question.", [])
  else
    match remote (promptOf question) with
    | Except.ok t => (t, [])
    | Except.error e =>
        (sentinelMarker ++ e,
         [⟨MsgKind.error, "Error generating solution with Gemini: " ++ e⟩])

/-- `save_qa_to_firestore` (app.py lines 82-100). `fbInit` and `dbSome` are
the truthiness of the globals `firebase_initialized` and `db`; `writeFault`
models whether `qa_collection.add` raises (and with what message). Returns the
boolean result, the new store contents and the emitted messages. -/
def save_qa_to_firestore (fbInit dbSome : Bool) (writeFault : Option String)
    (store : List WriteDoc) (question solution : String) :
    Bool × List WriteDoc × List Msg :=
  if !fbInit || !dbSome then
    (false, store, [⟨MsgKind.error, "Firebase not initialized. Cannot save data."⟩])
  else if question = "" || solution = "" then
    (false, store, [⟨MsgKind.warning, "Question or solution is empty. Nothing to save."⟩])
  else
    match writeFault with
    | some e => (false, store, [⟨MsgKind.error, "Error saving to Firestore: " ++ e⟩])
    | none => (true, store ++ [⟨question, solution, WriteTS.server⟩], [])

/-- Timestamp normalization inside `get_past_qa_from_firestore`
(app.py lines 117-118): a native instant is replaced by its isoformat text;
anything else is left as is. -/
def normalizeDoc (d : ReadDoc) : ReadDoc :=
  { d with
    timestamp :=
      match d.timestamp with
      | some (ReadTSVal.instant t) => some (ReadTSVal.text (isoformat t))
      | other => other }

/-- `get_past_qa_from_firestore` (app.py lines 102-123). `readResult` models
the Firestore streaming query: either the documents in descending timestamp
order or a raised exception. Returns the list handed to callers and the
emitted messages. -/
def get_past_qa_from_firestore (fbInit dbSome : Bool)
    (readResult : Except String (List ReadDoc)) : List ReadDoc × List Msg :=
  if !fbInit || !dbSome then
    ([], [⟨MsgKind.error, "Firebase not initialized. Cannot retrieve data."⟩])
  else
    match readResult with
    | Except.error e =>
        ([], [⟨MsgKind.error, "Error retrieving from Firestore: " ++ e⟩])
    | Except.ok docs => (docs.map normalizeDoc, [])

/-- Session state (app.py lines 159-164 and 226-227). -/
structure SessionState where
  current_question : String
  current_solution : String
  solution_generated : Bool
  history_page : Nat
deriving DecidableEq, Repr

/-- Streamlit cache registries for the three memoized functions of the app:
`get_gemini_api_key` and `get_past_qa_from_firestore` are `@st.cache_data`
(lines 49 and 102); `init_firebase` is `@st.cache_resource` (line 19).
Each slot holds the memoized value when populated. -/
structure Caches where
  get_gemini_api_key_cache : Option (Option String)
  get_past_qa_cache : Option (List ReadDoc)
  init_firebase_cache : Option (Bool × Bool)
deriving DecidableEq, Repr

/-- `st.cache_data.clear()` (app.py line 194): clears every `@st.cache_data`
registry process-wide; `@st.cache_resource` registries are a separate store and
are not touched. -/
def cacheDataClear (c : Caches) : Caches :=
  { get_gemini_api_key_cache := none
    get_past_qa_cache := none
    init_firebase_cache := c.init_firebase_cache }

/-- Process-level environment of one generate action: the module globals and
the external oracles. -/
structure Env where
  geminiApiKey : Option String
  model : Bool
  firebaseInitialized : Bool
  dbSome : Bool
  remote : String → Except String String
  writeFault : Option String

/-- Result of one generate-button click. -/
structure StepResult where
  state : SessionState
  store : List WriteDoc
  caches : Caches
  msgs : List Msg
deriving DecidableEq, Repr

/-- The generate-button handler (app.py lines 176-200): guard on the API key,
then on the stripped input, then generate, record the solution in the session
state, and save to Firestore only when the solution is truthy and does not
start with the check marker. -/
def generateClicked (env : Env) (caches : Caches) (session : SessionState)
    (store : List WriteDoc) (user_question : String) : StepResult :=
  if !(pyTruthyStr env.geminiApiKey) then
    ⟨session, store, caches,
      [⟨MsgKind.error, "Cannot generate solution: Gemini API Key is not configured."⟩]⟩
  else if pyStrip user_question = "" then
    ⟨session, store, caches, [⟨MsgKind.warning, "Please enter a question."⟩]⟩
  else
    let gen := generate_solution env.model env.remote user_question
    let solution := gen.1
    let session1 : SessionState :=
      { session with
        current_question := user_question
        current_solution := solution
        solution_generated := true }
    if solution != "" && !(startswith solution saveCheckMarker) then
      if env.firebaseInitialized then
        let saved := save_qa_to_firestore env.firebaseInitialized env.dbSome
          env.writeFault store user_question solution
        if saved.1 then
          ⟨session1, saved.2.1, cacheDataClear caches,
            gen.2 ++ saved.2.2 ++ [⟨MsgKind.success, "Question and solution saved to history!"⟩]⟩
        else
          ⟨session1, saved.2.1, caches,
            gen.2 ++ saved.2.2 ++ [⟨MsgKind.error, "Failed to save question and solution to history."⟩]⟩
      else
        ⟨session1, store, caches,
          gen.2 ++ [⟨MsgKind.warning, "Firebase not initialized. Solution not saved to history."⟩]⟩
    else
      ⟨session1, store, caches,
        gen.2 ++ [⟨MsgKind.error, "Solution generation failed. Not saved to history."⟩]⟩

/-- Page size of the history section (app.py line 222). -/
def items_per_page : Nat := 5

/-- `total_pages` (app.py line 224): ceiling division written as
`(total_items + items_per_page - 1) // items_per_page`. -/
def total_pages (total_items : Nat) : Nat :=
  (total_items + items_per_page - 1) / items_per_page

/-- One pagination button press. -/
inductive PageAction
  | prev
  | next
deriving DecidableEq, Repr

/-- The Previous / Next button handlers (app.py lines 231-239) for a history
of `n` records: decrement when above page 1, increment when below the last
page; neither branch emits any message. Returns the new page and the emitted
messages. -/
def paginationStep (n : Nat) (page : Nat) : PageAction → Nat × List Msg
  | PageAction.prev => if page > 1 then (page - 1, []) else (page, [])
  | PageAction.next => if page < total_pages n then (page + 1, []) else (page, [])

/-- Page reached from the initial page by a sequence of button presses. -/
def applyActions (n : Nat) (page : Nat) (acts : List PageAction) : Nat :=
  acts.foldl (fun p a => (paginationStep n p a).1) page

/-- The history page slice (app.py lines 241-243):
`past_qas[(page-1)*5 : (page-1)*5 + 5]`. -/
def currentPageQas (past_qas : List ReadDoc) (page : Nat) : List ReadDoc :=
  (past_qas.drop ((page - 1) * items_per_page)).take items_per_page

/-- The empty-page reset (app.py lines 246-249): when the current slice is
empty and the page is above 1, go back to page 1 and force `st.rerun()`.
Returns the new page and whether a rerun was forced. -/
def historyAdjust (past_qas : List ReadDoc) (page : Nat) : Nat × Bool :=
  if currentPageQas past_qas page = [] ∧ page > 1 then (1, true) else (page, false)

/-! ## Helper lemmas -/

lemma paginationStep_bounds (n p : Nat) (a : PageAction) (h1 : 1 ≤ p)
    (h2 : p ≤ max (total_pages n) 1) :
    1 ≤ (paginationStep n p a).1 ∧ (paginationStep n p a).1 ≤ max (total_pages n) 1 := by
  cases a <;> simp only [paginationStep] <;> split <;>
    first
      | exact ⟨h1, h2⟩
      | (rename_i h; constructor <;> omega)

lemma applyActions_bounds (n : Nat) (acts : List PageAction) (p : Nat)
    (h1 : 1 ≤ p) (h2 : p ≤ max (total_pages n) 1) :
    1 ≤ applyActions n p acts ∧ applyActions n p acts ≤ max (total_pages n) 1 := by
  induction acts generalizing p with
  | nil => exact ⟨h1, h2⟩
  | cons a as ih =>
      have h := paginationStep_bounds n p a h1 h2
      exact ih _ h.1 h.2

lemma startswith_check_of_sentinel (s : String)
    (h : startswith s sentinelMarker = true) :
    startswith s saveCheckMarker = true := by
  unfold startswith at *
  rw [List.isPrefixOf_iff_prefix] at *
  have hsplit : sentinelMarker.data
      = saveCheckMarker.data ++ (" at this time. Error: " : String).data := rfl
  have hpre : saveCheckMarker.data <+: sentinelMarker.data :=
    ⟨(" at this time. Error: " : String).data, hsplit.symm⟩
  exact hpre.trans h

lemma bne_empty_of_startswith_sentinel (s : String)
    (h : startswith s sentinelMarker = true) :
    (s != "") = true := by
  unfold startswith at h
  rw [List.isPrefixOf_iff_prefix] at h
  have hlen := h.length_le
  have hne : s.data ≠ [] := by
    intro he
    rw [he] at hlen
    simp [sentinelMarker] at hlen
  cases s with
  | mk data =>
      cases data with
      | nil => exact absurd rfl hne
      | cons c cs => rfl

lemma ne_empty_of_pyStrip (s : String) (h : pyStrip s ≠ "") : s ≠ "" := by
  intro he
  subst he
  exact h rfl

/-! ## Claims -/

/-- C3: for `n` records, the history page reached from the initial page 1 by
any sequence of Previous/Next presses stays in `[1, total_pages n]` (collapsing
to `[1,1]` when `n = 0`, since then `max (total_pages n) 1 = 1`);
`total_pages n` is the ceiling of `n / 5` (characterized as the least multiple
bound); a Next press on the last page and a Previous press on page 1 leave the
page unchanged and emit no message. -/
theorem pagination_clamped (n : Nat) (acts : List PageAction) :
    (1 ≤ applyActions n 1 acts ∧ applyActions n 1 acts ≤ max (total_pages n) 1)
    ∧ (n ≤ items_per_page * total_pages n
        ∧ items_per_page * total_pages n < n + items_per_page)
    ∧ paginationStep n (total_pages n) PageAction.next = (total_pages n, [])
    ∧ paginationStep n 1 PageAction.prev = (1, []) := by
  refine ⟨applyActions_bounds n acts 1 le_rfl (Nat.le_max_right _ 1), ?_, ?_, ?_⟩
  · unfold total_pages items_per_page
    omega
  · simp [paginationStep]
  · simp [paginationStep]

/-- C4: the rendered history page is exactly the window of indices
`[(page-1)*5, page*5)` of the full list (elements beyond the window are
absent), and when that slice is empty on a page above 1 the page is reset to 1
with a forced rerun, and only then. -/
theorem history_slice_spec (l : List ReadDoc) (p : Nat) (hp : 1 ≤ p) :
    (∀ i, i < items_per_page →
        (currentPageQas l p)[i]? = l[(p - 1) * items_per_page + i]?)
    ∧ (∀ i, items_per_page ≤ i → (currentPageQas l p)[i]? = none)
    ∧ (currentPageQas l p = [] → 1 < p → historyAdjust l p = (1, true))
    ∧ (¬(currentPageQas l p = [] ∧ 1 < p) → historyAdjust l p = (p, false)) := by
  refine ⟨?_, ?_, ?_, ?_⟩
  · intro i hi
    unfold currentPageQas
    rw [List.getElem?_take, if_pos hi, List.getElem?_drop]
  · intro i hi
    unfold currentPageQas
    apply List.getElem?_eq_none
    have := List.length_take_le items_per_page (l.drop ((p - 1) * items_per_page))
    omega
  · intro he hgt
    unfold historyAdjust
    rw [if_pos ⟨he, hgt⟩]
  · intro hne
    unfold historyAdjust
    rw [if_neg hne]

/-- Closed instance of `history_slice_spec` at a concrete list and page. -/
theorem history_slice_spec_witness :
    (currentPageQas
        [⟨some "a", some "1", none⟩, ⟨some "b", some "2", none⟩,
         ⟨some "c", some "3", none⟩, ⟨some "d", some "4", none⟩,
         ⟨some "e", some "5", none⟩, ⟨some "f", some "6", none⟩] 2)[0]?
      = some ⟨some "f", some "6", none⟩
    ∧ historyAdjust
        [⟨some "a", some "1", none⟩, ⟨some "b", some "2", none⟩,
         ⟨some "c", some "3", none⟩, ⟨some "d", some "4", none⟩,
         ⟨some "e", some "5", none⟩, ⟨some "f", some "6", none⟩] 3
      = (1, true) := by
  have h2 := history_slice_spec
    [⟨some "a", some "1", none⟩, ⟨some "b", some "2", none⟩,
     ⟨some "c", some "3", none⟩, ⟨some "d", some "4", none⟩,
     ⟨some "e", some "5", none⟩, ⟨some "f", some "6", none⟩] 2 (by decide)
  have h3 := history_slice_spec
    [⟨some "a", some "1", none⟩, ⟨some "b", some "2", none⟩,
     ⟨some "c", some "3", none⟩, ⟨some "d", some "4", none⟩,
     ⟨some "e", some "5", none⟩, ⟨some "f", some "6", none⟩] 3 (by decide)
  refine ⟨?_, h3.2.2.1 (by decide) (by decide)⟩
  rw [h2.1 0 (by decide)]
  decide

/-- C5: `save_qa_to_firestore` returns false without touching the store when
the store is uninitialized (with the uninitialized-store error) or when either
field is empty (with the distinct empty-field warning); on a write fault it
returns false, leaves the store unchanged and surfaces the fault message; on
success it returns true having appended a record whose timestamp is the
server-assigned marker; and whenever it returns true the store was extended by
exactly that record. -/
theorem save_qa_spec (fbInit dbSome : Bool) (wf : Option String)
    (store : List WriteDoc) (q s : String) :
    (¬(fbInit = true ∧ dbSome = true) →
      save_qa_to_firestore fbInit dbSome wf store q s
        = (false, store,
            [⟨MsgKind.error, "Firebase not initialized. Cannot save data."⟩]))
    ∧ (fbInit = true → dbSome = true → (q = "" ∨ s = "") →
      save_qa_to_firestore fbInit dbSome wf store q s
        = (false, store,
            [⟨MsgKind.warning, "Question or solution is empty. Nothing to save."⟩]))
    ∧ (∀ e, fbInit = true → dbSome = true → q ≠ "" → s ≠ "" → wf = some e →
      save_qa_to_firestore fbInit dbSome wf store q s
        = (false, store, [⟨MsgKind.error, "Error saving to Firestore: " ++ e⟩]))
    ∧ (fbInit = true → dbSome = true → q ≠ "" → s ≠ "" → wf = none →
      save_qa_to_firestore fbInit dbSome wf store q s
        = (true, store ++ [⟨q, s, WriteTS.server⟩], []))
    ∧ ((save_qa_to_firestore fbInit dbSome wf store q s).1 = true →
      (save_qa_to_firestore fbInit dbSome wf store q s).2.1
        = store ++ [⟨q, s, WriteTS.server⟩])
    ∧ (⟨MsgKind.error, "Firebase not initialized. Cannot save data."⟩ : Msg)
        ≠ ⟨MsgKind.warning, "Question or solution is empty. Nothing to save."⟩ := by
  refine ⟨?_, ?_, ?_, ?_, ?_, by decide⟩
  · intro h
    unfold save_qa_to_firestore
    rw [if_pos]
    cases fbInit <;> cases dbSome <;> simp_all
  · intro hfb hdb hqs
    subst hfb; subst hdb
    unfold save_qa_to_firestore
    rw [if_neg (by simp), if_pos]
    rcases hqs with h | h <;> simp [h]
  · intro e hfb hdb hq hs hwf
    subst hfb; subst hdb; subst hwf
    unfold save_qa_to_firestore
    rw [if_neg (by simp), if_neg (by simp [hq, hs])]
  · intro hfb hdb hq hs hwf
    subst hfb; subst hdb; subst hwf
    unfold save_qa_to_firestore
    rw [if_neg (by simp), if_neg (by simp [hq, hs])]
  · intro htrue
    unfold save_qa_to_firestore at *
    split at htrue
    · simp at htrue
    · split at htrue
      · simp at htrue
      · split at htrue
        · simp at htrue
        · split
          · simp_all
          · rfl

/-- Closed instance of `save_qa_spec`: a successful write appends the
server-timestamped record, and an uninitialized store rejects the write. -/
theorem save_qa_spec_witness :
    save_qa_to_firestore true true none [] "q1" "s1"
      = (true, [⟨"q1", "s1", WriteTS.server⟩], [])
    ∧ save_qa_to_firestore false true none [] "q1" "s1"
      = (false, [],
          [⟨MsgKind.error, "Firebase not initialized. Cannot save data."⟩]) := by
  constructor
  · exact (save_qa_spec true true none [] "q1" "s1").2.2.2.1 rfl rfl
      (by decide) (by decide) rfl
  · exact (save_qa_spec false true none [] "q1" "s1").1 (by simp)

/-- C6: every document returned by `get_past_qa_from_firestore` has its
timestamp (when present) in text form; a native instant is never handed to a
caller. -/
theorem list_all_timestamp_text (fbInit dbSome : Bool)
    (readResult : Except String (List ReadDoc)) (d : ReadDoc)
    (hd : d ∈ (get_past_qa_from_firestore fbInit dbSome readResult).1)
    (v : ReadTSVal) (hv : d.timestamp = some v) :
    ∃ s, v = ReadTSVal.text s := by
  unfold get_past_qa_from_firestore at hd
  split at hd
  · simp at hd
  · cases readResult with
    | error e => simp at hd
    | ok docs =>
        simp only [List.mem_map] at hd
        obtain ⟨d0, _, rfl⟩ := hd
        unfold normalizeDoc at hv
        cases hts : d0.timestamp with
        | none => rw [hts] at hv; simp at hv
        | some v0 =>
            cases v0 with
            | instant t =>
                rw [hts] at hv
                simp at hv
                exact ⟨isoformat t, hv.symm⟩
            | text s =>
                rw [hts] at hv
                simp at hv
                exact ⟨s, hv.symm⟩

/-- Closed instance of `list_all_timestamp_text`: a native-instant timestamp
comes back as its isoformat text. -/
theorem list_all_timestamp_text_witness :
    (⟨some "q", some "s", some (ReadTSVal.text (isoformat 5))⟩ : ReadDoc)
      ∈ (get_past_qa_from_firestore true true
          (Except.ok [⟨some "q", some "s", some (ReadTSVal.instant 5)⟩])).1
    ∧ ∃ s, ReadTSVal.text (isoformat 5) = ReadTSVal.text s := by
  refine ⟨by decide, ?_⟩
  exact list_all_timestamp_text true true
    (Except.ok [⟨some "q", some "s", some (ReadTSVal.instant 5)⟩])
    ⟨some "q", some "s", some (ReadTSVal.text (isoformat 5))⟩
    (by decide) (ReadTSVal.text (isoformat 5)) rfl

/-- C1: when the generated solution starts with the failure sentinel, the
generate handler reports the generation-failed error and skips the save step:
the store is unchanged (in particular also when initialized), while the session
still records the question, the solution and the generated flag. -/
theorem sentinel_skips_save (env : Env) (caches : Caches) (session : SessionState)
    (store : List WriteDoc) (q : String)
    (hkey : pyTruthyStr env.geminiApiKey = true)
    (hq : pyStrip q ≠ "")
    (hsent : startswith (generate_solution env.model env.remote q).1 sentinelMarker
        = true) :
    (generateClicked env caches session store q).store = store
    ∧ (generateClicked env caches session store q).state.current_question = q
    ∧ (generateClicked env caches session store q).state.current_solution
        = (generate_solution env.model env.remote q).1
    ∧ (generateClicked env caches session store q).state.solution_generated = true
    ∧ (⟨MsgKind.error, "Solution generation failed. Not saved to history."⟩ : Msg)
        ∈ (generateClicked env caches session store q).msgs := by
  have hchk := startswith_check_of_sentinel _ hsent
  unfold generateClicked
  simp [hkey, hq, hchk]

/-- Closed instance of `sentinel_skips_save`: a faulting remote call yields a
sentinel-prefixed solution, the store stays empty and the error is shown. -/
theorem sentinel_skips_save_witness :
    (generateClicked ⟨some "k", true, true, true, fun _ => Except.error "boom", none⟩
        ⟨none, none, none⟩ ⟨"", "", false, 1⟩ [] "2+2").store = []
    ∧ (⟨MsgKind.error, "Solution generation failed. Not saved to history."⟩ : Msg)
        ∈ (generateClicked ⟨some "k", true, true, true, fun _ => Except.error "boom",
            none⟩ ⟨none, none, none⟩ ⟨"", "", false, 1⟩ [] "2+2").msgs := by
  have h := sentinel_skips_save
    ⟨some "k", true, true, true, fun _ => Except.error "boom", none⟩
    ⟨none, none, none⟩ ⟨"", "", false, 1⟩ [] "2+2"
    (by decide) (by decide) (by decide)
  exact ⟨h.1, h.2.2.2.2⟩

/-- C9: when the API key is present but the model object is `None`,
`generate_solution` returns the fixed model-not-initialized string, which does
not start with the failure sentinel (nor with the handler's check marker), so
the handler classifies it as a success and saves it to the history store. -/
theorem model_missing_classified_success (env : Env) (caches : Caches)
    (session : SessionState) (store : List WriteDoc) (q : String)
    (hkey : pyTruthyStr env.geminiApiKey = true)
    (hmodel : env.model = false)
    (hq : pyStrip q ≠ "")
    (hfb : env.firebaseInitialized = true)
    (hdb : env.dbSome = true)
    (hwf : env.writeFault = none) :
    (generate_solution env.model env.remote q).1 = modelNotInitMsg
    ∧ startswith modelNotInitMsg sentinelMarker = false
    ∧ startswith modelNotInitMsg saveCheckMarker = false
    ∧ (generateClicked env caches session store q).store
        = store ++ [⟨q, modelNotInitMsg, WriteTS.server⟩] := by
  have hqne := ne_empty_of_pyStrip q hq
  have h1 : (modelNotInitMsg != "") = true := by decide
  have h2 : startswith modelNotInitMsg saveCheckMarker = false := by decide
  have h3 : modelNotInitMsg ≠ "" := by decide
  refine ⟨by rw [hmodel]; rfl, by decide, h2, ?_⟩
  simp [generateClicked, generate_solution, save_qa_to_firestore,
        hkey, hq, hmodel, hfb, hdb, hwf, h1, h2, h3, hqne]

/-- Closed instance of `model_missing_classified_success`: the failure text is
written to the store. -/
theorem model_missing_classified_success_witness :
    (generateClicked ⟨some "k", false, true, true, fun _ => Except.ok "x", none⟩
        ⟨none, none, none⟩ ⟨"", "", false, 1⟩ [] "2+2").store
      = [⟨"2+2", modelNotInitMsg, WriteTS.server⟩] :=
  (model_missing_classified_success
    ⟨some "k", false, true, true, fun _ => Except.ok "x", none⟩
    ⟨none, none, none⟩ ⟨"", "", false, 1⟩ [] "2+2"
    (by decide) rfl (by decide) rfl rfl rfl).2.2.2

/-- C10: after a successful save the handler calls `st.cache_data.clear()`:
both `@st.cache_data` registries (the memoized API-key lookup and the history
read) are emptied, while the `@st.cache_resource` registry holding the store
client handle is untouched. -/
theorem cache_clear_scope (env : Env) (caches : Caches) (session : SessionState)
    (store : List WriteDoc) (q t : String)
    (hkey : pyTruthyStr env.geminiApiKey = true)
    (hq : pyStrip q ≠ "")
    (hmodel : env.model = true)
    (hremote : env.remote (promptOf q) = Except.ok t)
    (ht : t ≠ "")
    (hts : startswith t saveCheckMarker = false)
    (hfb : env.firebaseInitialized = true)
    (hdb : env.dbSome = true)
    (hwf : env.writeFault = none) :
    (generateClicked env caches session store q).caches = cacheDataClear caches
    ∧ (generateClicked env caches session store q).caches.get_gemini_api_key_cache
        = none
    ∧ (generateClicked env caches session store q).caches.get_past_qa_cache = none
    ∧ (generateClicked env caches session store q).caches.init_firebase_cache
        = caches.init_firebase_cache := by
  have hqne := ne_empty_of_pyStrip q hq
  have ht' : (t != "") = true := by simp [ht]
  have hmain : (generateClicked env caches session store q).caches
      = cacheDataClear caches := by
    simp [generateClicked, generate_solution, save_qa_to_firestore,
          hkey, hq, hmodel, hremote, hqne, ht, ht', hts, hfb, hdb, hwf]
  exact ⟨hmain, by rw [hmain]; rfl, by rw [hmain]; rfl, by rw [hmain]; rfl⟩

/-- Closed instance of `cache_clear_scope`: populated data caches are cleared,
the resource cache survives. -/
theorem cache_clear_scope_witness :
    (generateClicked ⟨some "k", true, true, true, fun _ => Except.ok "ans", none⟩
        ⟨some (some "k"), some [], some (true, true)⟩
        ⟨"", "", false, 1⟩ [] "2+2").caches
      = ⟨none, none, some (true, true)⟩ :=
  (cache_clear_scope ⟨some "k", true, true, true, fun _ => Except.ok "ans", none⟩
    ⟨some (some "k"), some [], some (true, true)⟩ ⟨"", "", false, 1⟩ [] "2+2" "ans"
    (by decide) (by decide) rfl rfl (by decide) (by decide) rfl rfl rfl).1

/-- C8 as stated is false: when the API key is missing and the input trims to
empty, the handler takes the missing-key branch, so an error is shown and no
warning at all — though the generator is still not invoked and the state is
still unchanged. -/
theorem empty_input_no_warning_counterexample :
    pyStrip " " = ""
    ∧ (generateClicked ⟨none, true, true, true, fun _ => Except.ok "x", none⟩
        ⟨none, none, none⟩ ⟨"", "", false, 1⟩ [] " ").msgs
      = [⟨MsgKind.error, "Cannot generate solution: Gemini API Key is not configured."⟩]
    ∧ ∀ m ∈ (generateClicked ⟨none, true, true, true, fun _ => Except.ok "x", none⟩
        ⟨none, none, none⟩ ⟨"", "", false, 1⟩ [] " ").msgs,
        m.kind ≠ MsgKind.warning := by
  decide

/-- C8 amended: when the API key is configured and the input trims to empty,
exactly the warning is shown, the whole step state (session including the page
number, store, caches) is unchanged, and the generator is never invoked (the
result does not depend on the model, the remote service or the write oracle). -/
theorem empty_input_state_unchanged (env : Env) (caches : Caches)
    (session : SessionState) (store : List WriteDoc) (q : String)
    (hkey : pyTruthyStr env.geminiApiKey = true)
    (hq : pyStrip q = "") :
    generateClicked env caches session store q
      = ⟨session, store, caches, [⟨MsgKind.warning, "Please enter a question."⟩]⟩
    ∧ ∀ m r w, generateClicked ⟨env.geminiApiKey, m, env.firebaseInitialized,
        env.dbSome, r, w⟩ caches session store q
        = generateClicked env caches session store q := by
  constructor
  · simp [generateClicked, hkey, hq]
  · intro m r w
    simp [generateClicked, hkey, hq]

/-- Closed instance of `empty_input_state_unchanged` at a configured key and a
whitespace-only input. -/
theorem empty_input_state_unchanged_witness :
    generateClicked ⟨some "k", true, true, true, fun _ => Except.ok "x", none⟩
        ⟨none, none, none⟩ ⟨"", "", false, 1⟩ [] " "
      = ⟨⟨"", "", false, 1⟩, [], ⟨none, none, none⟩,
          [⟨MsgKind.warning, "Please enter a question."⟩]⟩ :=
  (empty_input_state_unchanged
    ⟨some "k", true, true, true, fun _ => Except.ok "x", none⟩
    ⟨none, none, none⟩ ⟨"", "", false, 1⟩ [] " " (by decide) (by decide)).1

/-- C7 as stated is false: when the model object is `None`, a call with an
empty question returns the model-not-initialized string, not the
enter-a-question prompt (the model guard comes first in the code). -/
theorem empty_question_counterexample :
    (generate_solution false (fun _ => Except.ok "whatever") "").1
      ≠ "Please enter a question."
    ∧ generate_solution false (fun _ => Except.ok "whatever") ""
      = (modelNotInitMsg, []) := by
  decide

/-- C7 amended: when the model is configured, a call with an empty question
returns exactly the enter-a-question prompt with no message emitted (so no
exception surfaced), and the remote service is not invoked (the result does
not depend on the remote oracle). -/
theorem empty_question_prompt (remote remote2 : String → Except String String) :
    generate_solution true remote "" = ("Please enter a question.", [])
    ∧ generate_solution true remote "" = generate_solution true remote2 "" :=
  ⟨rfl, rfl⟩

/-- C2 as stated is false: a successful remote response may itself start with
the failure sentinel; generate returns it verbatim, so it is neither a success
shape free of the sentinel nor produced by a remote fault. -/
theorem generate_shape_counterexample :
    ¬ ((∃ t, (fun _ => Except.ok (sentinelMarker ++ "fake") :
            String → Except String String) (promptOf "2+2") = Except.ok t
          ∧ (generate_solution true
              (fun _ => Except.ok (sentinelMarker ++ "fake")) "2+2").1 = t
          ∧ startswith (generate_solution true
              (fun _ => Except.ok (sentinelMarker ++ "fake")) "2+2").1
              sentinelMarker = false)
      ∨ (∃ e, (fun _ => Except.ok (sentinelMarker ++ "fake") :
            String → Except String String) (promptOf "2+2") = Except.error e
          ∧ (generate_solution true
              (fun _ => Except.ok (sentinelMarker ++ "fake")) "2+2").1
            = sentinelMarker ++ e)) := by
  rintro (⟨t, ht, hr, hs⟩ | ⟨e, he, hr⟩)
  · exact absurd hs (by decide)
  · exact Except.noConfusion he

/-- C2 amended: for a non-empty question with the model configured, the result
of `generate_solution` has exactly two shapes: the remote response text
verbatim on success, or the sentinel followed by the fault details on a remote
fault. -/
theorem generate_two_shapes (remote : String → Except String String) (q : String)
    (hq : q ≠ "") :
    (∃ t, remote (promptOf q) = Except.ok t
        ∧ (generate_solution true remote q).1 = t)
    ∨ (∃ e, remote (promptOf q) = Except.error e
        ∧ (generate_solution true remote q).1 = sentinelMarker ++ e) := by
  cases h : remote (promptOf q) with
  | ok t =>
      left
      exact ⟨t, rfl, by simp [generate_solution, hq, h]⟩
  | error e =>
      right
      exact ⟨e, rfl, by simp [generate_solution, hq, h]⟩

/-- Closed instance of `generate_two_shapes` at a succeeding remote. -/
theorem generate_two_shapes_witness :
    (∃ t, (fun _ => Except.ok "the answer" : String → Except String String)
          (promptOf "2+2") = Except.ok t
        ∧ (generate_solution true (fun _ => Except.ok "the answer") "2+2").1 = t)
    ∨ (∃ e, (fun _ => Except.ok "the answer" : String → Except String String)
          (promptOf "2+2") = Except.error e
        ∧ (generate_solution true (fun _ => Except.ok "the answer") "2+2").1
          = sentinelMarker ++ e) :=
  generate_two_shapes (fun _ => Except.ok "the answer") "2+2" (by decide)

end TextToSolve
